import Mathlib

/-!
Shallow embedding of `src/scripts/components/map/path.js` (h5p-game-map `Path`
component) and verification of the specification claims about it.

The component has two halves:
* a connector state machine (`setState`, `setReachable`, `show`, `hide`,
  `reset`, plus the accessors) operating on mutable instance fields and the
  DOM class list — embedded below as a pure state-passing model over
  `PathState`;
* a geometric telemetry computation (`computePathTelemetry`, `resize`,
  `update`) — embedded over the real numbers further down.

Modelling conventions:
* JavaScript `undefined` for an instance field is `Option.none`; an assigned
  value is `some v`.
* The injected states enumeration (`this.params.globals.get('states')`) is an
  object mapping state names to numeric constants; it is modelled as an
  association list `List (String × Int)` in insertion order
  (`Object.entries` iterates in that order).  Property access `states[k]`
  is `jsProp`, which yields `none` for a missing key (JS `undefined`).
* `dom.classList` is modelled as a duplicate-free `List String`;
  `classList.add` / `classList.remove` are `classAdd` / `classRemove`.
* A JS `TypeError` (reading `[1]` of `undefined` in `setState`) is modelled
  by `Except.error`; normal returns are `Except.ok`.
* The one-animation-frame deferral in `show()` (removing the `transparent`
  class in a `requestAnimationFrame` callback) is collapsed into the same
  step; no claim observes the intermediate frame.
-/

namespace GameMapPath

/-- The subset of `this.params` that the state machine reads:
the injected states enumeration, the global
`params.visual.paths.displayPaths` flag, the configured initial state
(`this.params.state` after the `??` fallback in the constructor), and the
truthiness of the configured `params.visible`. -/
structure PathParams where
  states : List (String × Int)
  displayPaths : Bool
  state : Option Int
  visible : Bool
deriving DecidableEq

/-- The mutable instance fields of a `Path`: `this.state`,
`this.isReachableState`, `this.isVisibleState` and the DOM class list. -/
structure PathState where
  params : PathParams
  state : Option Int
  isReachableState : Option Bool
  isVisibleState : Option Bool
  classes : List String
deriving DecidableEq

/-- JS property access `o[k]` on the states object: `some` value for a
present key, `none` (undefined) for a missing one. -/
def jsProp (states : List (String × Int)) (k : String) : Option Int :=
  (states.find? (fun e => e.1 == k)).map (fun e => e.2)

/-- `dom.classList.add c`: appends `c` unless already present. -/
def classAdd (cs : List String) (c : String) : List String :=
  if c ∈ cs then cs else cs ++ [c]

/-- `dom.classList.remove c`. -/
def classRemove (cs : List String) (c : String) : List String :=
  cs.filter (fun d => d ≠ c)

/-- JS falsiness of `this.state` (a number or undefined):
undefined and `0` are falsy. -/
def jsFalsy : Option Int → Bool
  | none => true
  | some n => n == 0

/-- JS truthiness of a boolean-or-undefined field. -/
def jsTruthy : Option Bool → Bool
  | none => false
  | some b => b

/-- `hide()`: adds `display-none` and `transparent`, sets
`isVisibleState = false`. -/
def hide (p : PathState) : PathState :=
  { p with
    classes := classAdd (classAdd p.classes "display-none") "transparent",
    isVisibleState := some false }

/-- `show()`: no-op when the global `displayPaths` flag is off; otherwise
removes `display-none` (and, on the next animation frame, `transparent`) and
sets `isVisibleState = true`. -/
def showPath (p : PathState) : PathState :=
  if p.params.displayPaths = false then p
  else
    { p with
      classes := classRemove (classRemove p.classes "display-none") "transparent",
      isVisibleState := some true }

/-- The constructor: resolves `params.state ?? states.open`, creates the DOM
element with the base class, then hides or shows according to the truthiness
of `params.visible`. -/
def pathInit (states : List (String × Int)) (displayPaths : Bool)
    (stateParam : Option Int) (visible : Bool) : PathState :=
  let pp : PathParams :=
    { states := states
      displayPaths := displayPaths
      state := match stateParam with
               | some v => some v
               | none => jsProp states "open"
      visible := visible }
  let p0 : PathState :=
    { params := pp, state := none, isReachableState := none,
      isVisibleState := none, classes := ["h5p-game-map-path"] }
  if visible = false then hide p0 else showPath p0

/-- A JavaScript argument value: boolean, number, string or undefined. -/
inductive JSArg where
  | b (x : Bool)
  | n (x : Int)
  | s (x : String)
  | undef
deriving DecidableEq

/-- `setReachable(state)`: ignored unless the argument is a boolean;
otherwise stores it and hides the connector when `!this.isReachable()`. -/
def setReachable (p : PathState) (arg : JSArg) : PathState :=
  match arg with
  | .b x =>
    let p1 := { p with isReachableState := some x }
    if jsTruthy p1.isReachableState = false then hide p1 else p1
  | _ => p

/-- `isReachable()` accessor. -/
def isReachable (p : PathState) : Option Bool := p.isReachableState

/-- `isVisible()` accessor. -/
def isVisible (p : PathState) : Option Bool := p.isVisibleState

/-- `getState()` accessor. -/
def getState (p : PathState) : Option Int := p.state

/-- The tag-toggling loop in `setState`: for every entry of the enumeration,
remove the tag `h5p-game-map-path-<key>` when its value differs from the new
`this.state`, add it when it matches. -/
def applyTags (states : List (String × Int)) (st : Option Int)
    (cs : List String) : List String :=
  states.foldl
    (fun acc e =>
      if some e.2 ≠ st then classRemove acc ("h5p-game-map-path-" ++ e.1)
      else classAdd acc ("h5p-game-map-path-" ++ e.1))
    cs

/-- The `newState` chain of `setState`: `states[state]` when forced (numeric
property access, i.e. lookup of the decimal string key), `states.open` /
`states.cleared` for those two values, and undefined otherwise. -/
def newStateFor (states : List (String × Int)) (st : Int) (force : Bool) :
    Option Int :=
  if force then jsProp states (toString st)
  else if some st = jsProp states "open" then jsProp states "open"
  else if some st = jsProp states "cleared" then jsProp states "cleared"
  else none

/-- `setState` from the `typeof state !== 'number'` guard onward: `stOpt` is
the argument after string resolution (`none` models a non-number value, which
returns early); the update is guarded by
`!this.state || this.state !== newState`. -/
def setStateCore (p : PathState) (stOpt : Option Int) (force : Bool) :
    PathState :=
  match stOpt with
  | none => p
  | some st =>
    let newState := newStateFor p.params.states st force
    if jsFalsy p.state = true ∨ p.state ≠ newState then
      { p with
        state := newState
        classes := applyTags p.params.states newState p.classes }
    else p

/-- `setState(state, { force })`: a string argument is resolved via
`Object.entries(states).find(entry => entry[0] === state)[1]`, which throws a
`TypeError` when no entry matches (modelled as `Except.error`); any other
non-number argument falls through to the `typeof` guard and is a no-op. -/
def setState (p : PathState) (arg : JSArg) (force : Bool) :
    Except String PathState :=
  match arg with
  | .s s =>
    match jsProp p.params.states s with
    | none => .error "TypeError: cannot read properties of undefined"
    | some v => .ok (setStateCore p (some v) force)
  | .n n => .ok (setStateCore p (some n) force)
  | _ => .ok (setStateCore p none force)

/-- `reset({ isInitial })`: reachable is set to `true`, the state is reset to
the configured initial state (`isInitial`) or to `states.open`, and the
connector is shown when `isInitial && this.params.visible`, hidden
otherwise. -/
def reset (p : PathState) (isInitial : Bool) : PathState :=
  let p1 := setReachable p (.b true)
  let stOpt : Option Int :=
    if isInitial then p1.params.state else jsProp p1.params.states "open"
  let p2 := setStateCore p1 stOpt false
  if isInitial && p1.params.visible then showPath p2 else hide p2

/-- The state tags of the enumeration that are active on the connector. -/
def activeStateTags (states : List (String × Int)) (p : PathState) :
    List String :=
  (states.filter (fun e => p.classes.contains ("h5p-game-map-path-" ++ e.1))).map
    (fun e => "h5p-game-map-path-" ++ e.1)

/-! ### Sample data used by concrete theorems -/

/-- A sample injected enumeration with an extra member beyond
`open`/`cleared`. -/
def states3 : List (String × Int) := [("open", 1), ("cleared", 2), ("locked", 3)]

/-- A freshly constructed path over `states3` (displayPaths on, no configured
state, configured visible). -/
def path0 : PathState := pathInit states3 true none true

/-- `path0` after `setState(states3.open)`. -/
def pathOpen : PathState := setStateCore path0 (some 1) false

/-- A path over `states3` that has reached the `open` state and shows its
tag (obtained from the constructor followed by `setState(1)`). -/
def path3 : PathState := pathOpen

/-- A path whose stored state is the extra member `locked = 3` with the
matching tag active (in JS the `state` field is a plain mutable property). -/
def path6 : PathState :=
  { params := { states := states3, displayPaths := true, state := some 1,
                visible := true }
    state := some 3
    isReachableState := none
    isVisibleState := some true
    classes := ["h5p-game-map-path", "h5p-game-map-path-locked"] }

/-- A path originally configured `state = cleared (2)`, `visible = true`,
with the global `displayPaths` flag enabled. -/
def pathCV : PathState :=
  { params := { states := states3, displayPaths := true, state := some 2,
                visible := true }
    state := some 2
    isReachableState := none
    isVisibleState := some true
    classes := ["h5p-game-map-path", "h5p-game-map-path-cleared"] }

/-- Like `pathCV` but with the global `displayPaths` flag disabled and the
connector currently hidden. -/
def pathCVoff : PathState :=
  { params := { states := states3, displayPaths := false, state := some 2,
                visible := true }
    state := some 2
    isReachableState := none
    isVisibleState := some false
    classes := ["h5p-game-map-path", "h5p-game-map-path-cleared",
                "display-none", "transparent"] }

/-- A path over an enumeration without the extra member. -/
def path2 : PathState := pathInit [("open", 1), ("cleared", 2)] true none true

/-! ### Geometry: `computePathTelemetry`, `update`, `resize`

JavaScript floating-point arithmetic is idealised over the real numbers.
Division follows Lean's convention `x / 0 = 0`; no claim exercises the
`deltaXPx = 0` case, where JS `atan(±Infinity)` would give `±π/2` instead. -/

noncomputable section

/-- An endpoint bounding box (`telemetryFrom` / `telemetryTo`): position and
size in percent of the map dimensions. -/
structure Box where
  x : ℝ
  y : ℝ
  width : ℝ
  height : ℝ

/-- The map size in pixels. -/
structure MapSize where
  width : ℝ
  height : ℝ

/-- The telemetry record returned by `computePathTelemetry`. -/
structure Telemetry where
  x : ℝ
  y : ℝ
  length : ℝ
  angle : ℝ
  width : ℝ

/-- `Path.MIN_WIDTH_PX = 1`. -/
def MIN_WIDTH_PX : ℝ := 1

/-- `Path.MAX_FACTOR = 0.3`. -/
def MAX_FACTOR : ℝ := 0.3

/-- `Math.sign` on a real number. -/
def jsSign (x : ℝ) : ℝ :=
  if x < 0 then -1 else if 0 < x then 1 else 0

/-- `computePathTelemetry({ mapSize })`, with the endpoint boxes and the
parsed `visuals.pathWidth` fraction taken from `this.params`.  Returns `none`
(JS `null`) when the map height or width is `0`. -/
def computePathTelemetry (telemetryFrom telemetryTo : Box) (pathWidth : ℝ)
    (mapSize : MapSize) : Option Telemetry :=
  if mapSize.height = 0 ∨ mapSize.width = 0 then none
  else
    let fromXPx := telemetryFrom.x / 100 * mapSize.width
    let fromYPx := telemetryFrom.y / 100 * mapSize.height
    let toXPx := telemetryTo.x / 100 * mapSize.width
    let toYPx := telemetryTo.y / 100 * mapSize.height
    let width := telemetryFrom.width / 100 * mapSize.width
    let height := telemetryFrom.height / 100 * mapSize.height
    let deltaXPx := fromXPx - toXPx
    let deltaYPx := fromYPx - toYPx
    let angleOffset := if 0 ≤ jsSign deltaXPx then Real.pi else 0
    let angle := Real.arctan (deltaYPx / deltaXPx) + angleOffset
    let offsetToBorderX := width / 2 * Real.cos angle * 100 / mapSize.width
    let offsetToBorderY := height / 2 * Real.sin angle * 100 / mapSize.height
    let strokeWidth :=
      min (max MIN_WIDTH_PX (width * pathWidth)) (width * MAX_FACTOR)
    let offsetPathStroke := strokeWidth / 2 * 100 / mapSize.height
    let x := telemetryFrom.x + telemetryFrom.width / 2 + offsetToBorderX
    let y := telemetryFrom.y + telemetryFrom.height / 2 + offsetToBorderY -
      offsetPathStroke
    let length :=
      Real.sqrt (|deltaXPx| * |deltaXPx| + |deltaYPx| * |deltaYPx|) - width
    some { x := x, y := y, length := length, angle := angle,
           width := strokeWidth }

/-- The inline styles of the path element that `update` writes. -/
structure DomStyle where
  left : Option ℝ
  top : Option ℝ
  width : Option ℝ
  transform : Option ℝ
  borderTopWidth : Option ℝ

/-- `update(params)`: each style is written only when the corresponding
parameter is a number. -/
def update (style : DomStyle) (x y length angle width : Option ℝ) :
    DomStyle :=
  let s1 := match x with
            | some v => { style with left := some v }
            | none => style
  let s2 := match y with
            | some v => { s1 with top := some v }
            | none => s1
  let s3 := match length with
            | some v => { s2 with width := some v }
            | none => s2
  let s4 := match angle with
            | some v => { s3 with transform := some v }
            | none => s3
  match width with
  | some v => { s4 with borderTopWidth := some v }
  | none => s4

/-- `resize({ mapSize })`: computes telemetry and applies it via `update`;
returns with no style change when the telemetry is the `null` sentinel. -/
def resize (telemetryFrom telemetryTo : Box) (pathWidth : ℝ)
    (mapSize : MapSize) (style : DomStyle) : DomStyle :=
  match computePathTelemetry telemetryFrom telemetryTo pathWidth mapSize with
  | none => style
  | some t =>
    update style (some t.x) (some t.y) (some t.length) (some t.angle)
      (some t.width)

end

/-! ### Helper lemmas about the state machine -/

lemma hide_params (p : PathState) : (hide p).params = p.params := rfl

lemma hide_state (p : PathState) : (hide p).state = p.state := rfl

lemma hide_isReachable (p : PathState) :
    (hide p).isReachableState = p.isReachableState := rfl

lemma hide_isVisible (p : PathState) : (hide p).isVisibleState = some false :=
  rfl

lemma showPath_params (p : PathState) : (showPath p).params = p.params := by
  unfold showPath; split <;> rfl

lemma showPath_state (p : PathState) : (showPath p).state = p.state := by
  unfold showPath; split <;> rfl

lemma showPath_isReachable (p : PathState) :
    (showPath p).isReachableState = p.isReachableState := by
  unfold showPath; split <;> rfl

lemma showPath_isVisible_on (p : PathState)
    (h : p.params.displayPaths = true) :
    (showPath p).isVisibleState = some true := by
  unfold showPath
  rw [h]
  simp

lemma showPath_off (p : PathState) (h : p.params.displayPaths = false) :
    showPath p = p := by
  unfold showPath
  rw [h]
  simp

lemma setReachable_true (p : PathState) :
    setReachable p (.b true) = { p with isReachableState := some true } := rfl

lemma setStateCore_params (p : PathState) (stOpt : Option Int)
    (force : Bool) : (setStateCore p stOpt force).params = p.params := by
  unfold setStateCore
  cases stOpt with
  | none => rfl
  | some st => dsimp only; split <;> rfl

lemma setStateCore_isReachable (p : PathState) (stOpt : Option Int)
    (force : Bool) :
    (setStateCore p stOpt force).isReachableState = p.isReachableState := by
  unfold setStateCore
  cases stOpt with
  | none => rfl
  | some st => dsimp only; split <;> rfl

lemma setStateCore_isVisible (p : PathState) (stOpt : Option Int)
    (force : Bool) :
    (setStateCore p stOpt force).isVisibleState = p.isVisibleState := by
  unfold setStateCore
  cases stOpt with
  | none => rfl
  | some st => dsimp only; split <;> rfl

/-- The `newState` computed by a non-forced `setState` for a value that is
the value of `states.open` or of `states.cleared` is that value itself. -/
lemma newStateFor_valid (states : List (String × Int)) (v : Int)
    (h : jsProp states "open" = some v ∨ jsProp states "cleared" = some v) :
    newStateFor states v false = some v := by
  unfold newStateFor
  rw [if_neg (by simp)]
  by_cases h1 : some v = jsProp states "open"
  · rw [if_pos h1]
    exact h1.symm
  · rw [if_neg h1]
    rcases h with h | h
    · exact absurd h.symm h1
    · rw [if_pos h.symm]
      exact h

lemma setStateCore_state_valid (p : PathState) (v : Int)
    (h : jsProp p.params.states "open" = some v ∨
         jsProp p.params.states "cleared" = some v) :
    (setStateCore p (some v) false).state = some v := by
  unfold setStateCore
  simp only [newStateFor_valid p.params.states v h]
  split
  · rfl
  · next hc =>
    push_neg at hc
    exact hc.2

lemma setStateCore_self (p : PathState) (v : Int) (hst : p.state = some v)
    (hv : v ≠ 0)
    (h : jsProp p.params.states "open" = some v ∨
         jsProp p.params.states "cleared" = some v) :
    setStateCore p (some v) false = p := by
  unfold setStateCore
  simp only [newStateFor_valid p.params.states v h]
  have hcond : ¬(jsFalsy p.state = true ∨ p.state ≠ some v) := by
    rintro (hc | hc)
    · rw [hst] at hc
      simp only [jsFalsy, beq_iff_eq] at hc
      exact hv hc
    · exact hc hst
  rw [if_neg hcond]

lemma setState_ok_isVisible (p q : PathState) (arg : JSArg) (force : Bool)
    (h : setState p arg force = .ok q) :
    q.isVisibleState = p.isVisibleState := by
  cases arg with
  | s s =>
    simp only [setState] at h
    cases hx : jsProp p.params.states s with
    | none =>
      rw [hx] at h
      simp at h
    | some v =>
      rw [hx] at h
      simp only [Except.ok.injEq] at h
      rw [← h]
      exact setStateCore_isVisible p (some v) force
  | b x =>
    simp only [setState, Except.ok.injEq] at h
    rw [← h]
    exact setStateCore_isVisible p none force
  | n x =>
    simp only [setState, Except.ok.injEq] at h
    rw [← h]
    exact setStateCore_isVisible p (some x) force
  | undef =>
    simp only [setState, Except.ok.injEq] at h
    rw [← h]
    exact setStateCore_isVisible p none force

/-! ### Helper lemmas about the telemetry computation -/

lemma telemetry_width_eq (tf tb : Box) (f : ℝ) (ms : MapSize) (t : Telemetry)
    (h : computePathTelemetry tf tb f ms = some t) :
    t.width = min (max MIN_WIDTH_PX (tf.width / 100 * ms.width * f))
      (tf.width / 100 * ms.width * MAX_FACTOR) := by
  unfold computePathTelemetry at h
  split at h
  · exact absurd h (by simp)
  · simp only [Option.some.injEq] at h
    rw [← h]

lemma telemetry_angle_eq (tf tb : Box) (f : ℝ) (ms : MapSize) (t : Telemetry)
    (h : computePathTelemetry tf tb f ms = some t) :
    t.angle =
      Real.arctan ((tf.y / 100 * ms.height - tb.y / 100 * ms.height) /
          (tf.x / 100 * ms.width - tb.x / 100 * ms.width)) +
        (if 0 ≤ jsSign (tf.x / 100 * ms.width - tb.x / 100 * ms.width) then
          Real.pi else 0) := by
  unfold computePathTelemetry at h
  split at h
  · exact absurd h (by simp)
  · simp only [Option.some.injEq] at h
    rw [← h]

/-- Evaluation of the telemetry at the spec's concrete geometry example. -/
lemma compute_example_eq :
    computePathTelemetry ⟨0, 0, 10, 10⟩ ⟨50, 0, 10, 10⟩ 0.2 ⟨1000, 1000⟩ =
      some ⟨10, 4, 400, 0, 20⟩ := by
  unfold computePathTelemetry
  rw [if_neg (by norm_num)]
  simp only [Option.some.injEq, Telemetry.mk.injEq]
  dsimp only
  rw [show ((0 : ℝ) / 100 * 1000 - 50 / 100 * 1000) = -500 by norm_num]
  rw [show ((0 : ℝ) / 100 * 1000 - 0 / 100 * 1000) = 0 by norm_num]
  rw [show jsSign (-500 : ℝ) = -1 by unfold jsSign; rw [if_pos (by norm_num)]]
  rw [if_neg (by norm_num)]
  rw [zero_div, Real.arctan_zero, add_zero, Real.cos_zero, Real.sin_zero]
  rw [show |(-500 : ℝ)| = 500 by
    rw [abs_of_nonpos (by norm_num)]; norm_num]
  rw [abs_zero]
  rw [show (500 : ℝ) * 500 + 0 * 0 = 500 ^ 2 by norm_num]
  rw [Real.sqrt_sq (by norm_num : (0 : ℝ) ≤ 500)]
  have hsw : min (max MIN_WIDTH_PX ((10 : ℝ) / 100 * 1000 * 0.2))
      ((10 : ℝ) / 100 * 1000 * MAX_FACTOR) = 20 := by
    simp only [MIN_WIDTH_PX, MAX_FACTOR]
    rw [show max (1 : ℝ) (10 / 100 * 1000 * 0.2) = 20 by
      rw [max_eq_right] <;> norm_num]
    rw [min_eq_left] <;> norm_num
  rw [hsw]
  refine ⟨by norm_num, by norm_num, by norm_num, rfl, rfl⟩

/-- Evaluation of the telemetry at a small from-box (2% of a 100px map,
i.e. a 2px box): the stroke width comes out below `MIN_WIDTH_PX`. -/
lemma compute_small_eq :
    computePathTelemetry ⟨0, 0, 2, 2⟩ ⟨50, 0, 2, 2⟩ 0.2 ⟨100, 100⟩ =
      some ⟨2, 0.7, 48, 0, 0.6⟩ := by
  unfold computePathTelemetry
  rw [if_neg (by norm_num)]
  simp only [Option.some.injEq, Telemetry.mk.injEq]
  dsimp only
  rw [show ((0 : ℝ) / 100 * 100 - 50 / 100 * 100) = -50 by norm_num]
  rw [show ((0 : ℝ) / 100 * 100 - 0 / 100 * 100) = 0 by norm_num]
  rw [show jsSign (-50 : ℝ) = -1 by unfold jsSign; rw [if_pos (by norm_num)]]
  rw [if_neg (by norm_num)]
  rw [zero_div, Real.arctan_zero, add_zero, Real.cos_zero, Real.sin_zero]
  rw [show |(-50 : ℝ)| = 50 by
    rw [abs_of_nonpos (by norm_num)]; norm_num]
  rw [abs_zero]
  rw [show (50 : ℝ) * 50 + 0 * 0 = 50 ^ 2 by norm_num]
  rw [Real.sqrt_sq (by norm_num : (0 : ℝ) ≤ 50)]
  have hsw : min (max MIN_WIDTH_PX ((2 : ℝ) / 100 * 100 * 0.2))
      ((2 : ℝ) / 100 * 100 * MAX_FACTOR) = 0.6 := by
    simp only [MIN_WIDTH_PX, MAX_FACTOR]
    rw [show max (1 : ℝ) (2 / 100 * 100 * 0.2) = 1 by
      rw [max_eq_left] <;> norm_num]
    rw [min_eq_right] <;> norm_num
  rw [hsw]
  refine ⟨by norm_num, by norm_num, by norm_num, rfl, rfl⟩

/-! ## Claim theorems -/

/-- C1 (counterexample): the claimed lower bound `MIN_WIDTH_PX ≤ width`
fails for a small from box.  With `pathWidthFraction = 0.2 ∈ [0,1]` and
`fromBoxPixelWidth = 2/100*100 = 2 > 0`, the stroke width returned by
`computePathTelemetry` is `0.6 < MIN_WIDTH_PX`: the outer `Math.min` lets
`MAX_FACTOR * w` undercut the 1-pixel floor. -/
theorem C1_stroke_clamp_counterexample :
    computePathTelemetry ⟨0, 0, 2, 2⟩ ⟨50, 0, 2, 2⟩ 0.2 ⟨100, 100⟩ =
      some ⟨2, 0.7, 48, 0, 0.6⟩ ∧
    (0 : ℝ) ≤ 0.2 ∧ (0.2 : ℝ) ≤ 1 ∧
    (0 : ℝ) < (2 : ℝ) / 100 * 100 ∧
    (0.6 : ℝ) < MIN_WIDTH_PX := by
  refine ⟨compute_small_eq, by norm_num, by norm_num, by norm_num, ?_⟩
  simp only [MIN_WIDTH_PX]
  norm_num

/-- C1 (amended): for `pathWidthFraction ∈ [0,1]` and positive from-box
pixel width `w`, the stroke width always satisfies
`width ≤ MAX_FACTOR * w`, and `MIN_WIDTH_PX ≤ width` holds whenever
`MIN_WIDTH_PX ≤ MAX_FACTOR * w`; the upper cap, not the 1-pixel floor,
takes precedence when the two conflict. -/
theorem C1_stroke_clamp (tf tb : Box) (f : ℝ) (ms : MapSize) (t : Telemetry)
    (hf0 : 0 ≤ f) (hf1 : f ≤ 1)
    (hw : 0 < tf.width / 100 * ms.width)
    (h : computePathTelemetry tf tb f ms = some t) :
    t.width ≤ MAX_FACTOR * (tf.width / 100 * ms.width) ∧
    (MIN_WIDTH_PX ≤ MAX_FACTOR * (tf.width / 100 * ms.width) →
      MIN_WIDTH_PX ≤ t.width) := by
  rw [telemetry_width_eq tf tb f ms t h]
  constructor
  · rw [mul_comm MAX_FACTOR]
    exact min_le_right _ _
  · intro hmin
    rw [mul_comm MAX_FACTOR] at hmin
    exact le_min (le_max_left _ _) hmin

/-- C1 (witness): the amended clamp theorem at the spec's concrete
geometry example (100px from box, fraction 0.2, stroke width 20). -/
theorem C1_stroke_clamp_witness :
    computePathTelemetry ⟨0, 0, 10, 10⟩ ⟨50, 0, 10, 10⟩ 0.2 ⟨1000, 1000⟩ =
      some ⟨10, 4, 400, 0, 20⟩ ∧
    (20 : ℝ) ≤ MAX_FACTOR * ((10 : ℝ) / 100 * 1000) ∧
    (MIN_WIDTH_PX ≤ MAX_FACTOR * ((10 : ℝ) / 100 * 1000) →
      MIN_WIDTH_PX ≤ (20 : ℝ)) :=
  ⟨compute_example_eq,
   (C1_stroke_clamp _ _ _ _ _ (by norm_num) (by norm_num) (by norm_num)
      compute_example_eq).1,
   (C1_stroke_clamp _ _ _ _ _ (by norm_num) (by norm_num) (by norm_num)
      compute_example_eq).2⟩

/-- C2 (code bug): `setState` with a string that is not a key of the
enumeration does not fail silently — the `.find(entry => ...)[1]` lookup
reads `[1]` of `undefined` and throws a `TypeError` (modelled as
`Except.error`) — while a known key is resolved to its numeric value. -/
theorem C2_unknown_string_throws :
    setState path2 (.s "bogus") false =
      .error "TypeError: cannot read properties of undefined" ∧
    setState path2 (.s "cleared") false =
      .ok (setStateCore path2 (some 2) false) :=
  ⟨rfl, rfl⟩

/-- C3 (code bug): a non-forced `setState` with the enumeration member
`locked = 3` (neither `open` nor `cleared`) is not ignored: from the
`open` state it mutates `this.state` to undefined and strips the active
`open` tag, because `newState` stays undefined and the guard
`this.state !== newState` fires. -/
theorem C3_invalid_numeric_state_not_ignored :
    setState path3 (.n 3) false = .ok (setStateCore path3 (some 3) false) ∧
    path3.state = some 1 ∧
    path3.classes = ["h5p-game-map-path", "h5p-game-map-path-open"] ∧
    (setStateCore path3 (some 3) false).state = none ∧
    (setStateCore path3 (some 3) false).classes = ["h5p-game-map-path"] := by
  refine ⟨rfl, ?_, ?_, ?_, ?_⟩ <;> decide

/-- C4: with a map size of zero width or zero height the telemetry
computation returns the `null` sentinel and `resize` performs no visual
update. -/
theorem C4_zero_size_guard (tf tb : Box) (f : ℝ) (ms : MapSize)
    (style : DomStyle) (h : ms.width = 0 ∨ ms.height = 0) :
    computePathTelemetry tf tb f ms = none ∧
    resize tf tb f ms style = style := by
  have hc : computePathTelemetry tf tb f ms = none := by
    unfold computePathTelemetry
    rw [if_pos h.symm]
  refine ⟨hc, ?_⟩
  unfold resize
  rw [hc]

/-- C4 (witness): the zero-size guard at `{width: 0, height: 0}` and
`{width: 5, height: 0}`. -/
theorem C4_zero_size_guard_witness :
    (computePathTelemetry ⟨1, 2, 3, 4⟩ ⟨5, 6, 7, 8⟩ 0.5 ⟨0, 0⟩ = none ∧
      resize ⟨1, 2, 3, 4⟩ ⟨5, 6, 7, 8⟩ 0.5 ⟨0, 0⟩
        ⟨none, none, none, none, none⟩ = ⟨none, none, none, none, none⟩) ∧
    (computePathTelemetry ⟨1, 2, 3, 4⟩ ⟨5, 6, 7, 8⟩ 0.5 ⟨5, 0⟩ = none ∧
      resize ⟨1, 2, 3, 4⟩ ⟨5, 6, 7, 8⟩ 0.5 ⟨5, 0⟩
        ⟨some 1, none, none, none, none⟩ = ⟨some 1, none, none, none, none⟩) :=
  ⟨C4_zero_size_guard _ _ _ _ _ (Or.inl rfl),
   C4_zero_size_guard _ _ _ _ _ (Or.inr rfl)⟩

/-- C5: the computed angle is `atan(dy/dx)` plus a π offset exactly when
`sign(dx) ≥ 0`, where `(dx, dy)` is the from-pixel-position minus the
to-pixel-position; at the spec's concrete example the returned angle is
`0` radians and the stroke width `20`. -/
theorem C5_angle_formula :
    (∀ (tf tb : Box) (f : ℝ) (ms : MapSize) (t : Telemetry),
      computePathTelemetry tf tb f ms = some t →
      t.angle =
        Real.arctan ((tf.y / 100 * ms.height - tb.y / 100 * ms.height) /
            (tf.x / 100 * ms.width - tb.x / 100 * ms.width)) +
          (if 0 ≤ jsSign (tf.x / 100 * ms.width - tb.x / 100 * ms.width)
            then Real.pi else 0)) ∧
    computePathTelemetry ⟨0, 0, 10, 10⟩ ⟨50, 0, 10, 10⟩ 0.2 ⟨1000, 1000⟩ =
      some ⟨10, 4, 400, 0, 20⟩ :=
  ⟨telemetry_angle_eq, compute_example_eq⟩

/-- C5 (witness): the angle formula evaluated at the spec's concrete
example, where the offset branch is not taken (`sign(dx) = -1`). -/
theorem C5_angle_formula_witness :
    computePathTelemetry ⟨0, 0, 10, 10⟩ ⟨50, 0, 10, 10⟩ 0.2 ⟨1000, 1000⟩ =
      some ⟨10, 4, 400, 0, 20⟩ ∧
    (0 : ℝ) =
      Real.arctan (((0 : ℝ) / 100 * 1000 - 0 / 100 * 1000) /
          ((0 : ℝ) / 100 * 1000 - 50 / 100 * 1000)) +
        (if 0 ≤ jsSign ((0 : ℝ) / 100 * 1000 - 50 / 100 * 1000) then Real.pi
          else 0) :=
  ⟨C5_angle_formula.2, C5_angle_formula.1 _ _ _ _ _ C5_angle_formula.2⟩

/-- C6 (counterexample): `setState` is not idempotent for every enumeration
value.  For the member `locked = 3` with the stored state already `3`
(`this.state` is a plain mutable field in JS), a non-forced re-application
resets the state to undefined and removes the `locked` tag — a visual tag
update. -/
theorem C6_idempotence_counterexample :
    path6.state = some 3 ∧
    jsProp states3 "locked" = some 3 ∧
    (setStateCore path6 (some 3) false).state = none ∧
    (setStateCore path6 (some 3) false).classes = ["h5p-game-map-path"] ∧
    setStateCore path6 (some 3) false ≠ path6 := by
  refine ⟨?_, ?_, ?_, ?_, ?_⟩ <;> decide

/-- C6 (amended): `setState` is idempotent for the `open` and `cleared`
members with non-falsy values (the only states the component itself ever
stores): re-applying the current state changes nothing.  Concretely,
calling `setState('open')` twice in a row triggers exactly one tag change,
not two: the first call changes the class list, the second returns the
state unchanged. -/
theorem C6_idempotent_open_cleared :
    (∀ (p : PathState) (v : Int), p.state = some v → v ≠ 0 →
      (jsProp p.params.states "open" = some v ∨
        jsProp p.params.states "cleared" = some v) →
      setStateCore p (some v) false = p) ∧
    setState path0 (.s "open") false = .ok pathOpen ∧
    pathOpen.classes ≠ path0.classes ∧
    setState pathOpen (.s "open") false = .ok pathOpen := by
  have h4 : setStateCore pathOpen (some 1) false = pathOpen := by decide
  refine ⟨fun p v hst hv h => setStateCore_self p v hst hv h, rfl, by decide,
    ?_⟩
  show Except.ok (setStateCore pathOpen (some 1) false) = Except.ok pathOpen
  rw [h4]

/-- C6 (witness): idempotence applied at the concrete `open` state. -/
theorem C6_idempotent_witness :
    pathOpen.state = some 1 ∧
    setStateCore pathOpen (some 1) false = pathOpen :=
  ⟨by decide,
   C6_idempotent_open_cleared.1 pathOpen 1 (by decide) (by decide)
     (Or.inl (by decide))⟩

/-- C7 (code bug): a `setState` call that changes the stored state can leave
zero active state tags instead of exactly one.  A forced `setState(3)` from
the `open` state looks up `states[3]` — the decimal property key, which is
absent from the name-keyed enumeration — so the state changes to undefined
and the tag loop removes every tag. -/
theorem C7_exclusive_tagging_violated :
    setState path3 (.n 3) true = .ok (setStateCore path3 (some 3) true) ∧
    path3.state = some 1 ∧
    (setStateCore path3 (some 3) true).state ≠ path3.state ∧
    (activeStateTags states3 path3).length = 1 ∧
    (activeStateTags states3 (setStateCore path3 (some 3) true)).length =
      0 := by
  refine ⟨rfl, ?_, ?_, ?_, ?_⟩ <;> decide

/-- C8: `setReachable` ignores non-boolean arguments entirely (no field
changes), and `setReachable(false)` hides the connector immediately, so
`isVisible()` returns `false` afterwards regardless of the prior state and
visibility. -/
theorem C8_reachability_override (p : PathState) (k : Int) (s : String) :
    setReachable p (.n k) = p ∧ setReachable p (.s s) = p ∧
    setReachable p .undef = p ∧
    isVisible (setReachable p (.b false)) = some false ∧
    isReachable (setReachable p (.b false)) = some false := by
  refine ⟨rfl, rfl, rfl, ?_, ?_⟩ <;>
    simp [setReachable, jsTruthy, hide, isVisible, isReachable]

/-- C8 (witness): the reachability override on a connector in state
`cleared` with `visible = true`. -/
theorem C8_reachability_override_witness :
    isVisible (setReachable pathCV (.b false)) = some false ∧
    setReachable pathCV (.n 7) = pathCV :=
  ⟨(C8_reachability_override pathCV 7 "x").2.2.2.1,
   (C8_reachability_override pathCV 7 "x").1⟩

/-- C9 (counterexample): with the global `displayPaths` flag off, `show()`
is a no-op, so `reset({isInitial: true})` on an instance originally
configured `state = cleared, visible = true` does not leave the connector
visible: `isVisible()` stays `false`. -/
theorem C9_reset_counterexample :
    pathCVoff.params.state = some 2 ∧
    jsProp states3 "cleared" = some 2 ∧
    pathCVoff.params.visible = true ∧
    (reset pathCVoff true).state = some 2 ∧
    isVisible (reset pathCVoff true) = some false := by
  refine ⟨?_, ?_, ?_, ?_, ?_⟩ <;> decide

/-- C9 (amended): provided the global `displayPaths` flag is on, `reset`
sets reachable `true` unconditionally; with `isInitial: true` it restores
the originally configured state (here the `cleared` value) and shows the
connector exactly when originally configured visible; with
`isInitial: false` it sets the state to `open` and hides the connector. -/
theorem C9_reset_asymmetry (p : PathState) (vo vc : Int)
    (hop : jsProp p.params.states "open" = some vo)
    (hcl : jsProp p.params.states "cleared" = some vc)
    (hst : p.params.state = some vc)
    (hdp : p.params.displayPaths = true)
    (hvis : p.params.visible = true) :
    (reset p true).isReachableState = some true ∧
    (reset p true).state = some vc ∧
    isVisible (reset p true) = some true ∧
    (reset p false).isReachableState = some true ∧
    (reset p false).state = some vo ∧
    isVisible (reset p false) = some false := by
  have e1 : reset p true =
      showPath (setStateCore { p with isReachableState := some true }
        (some vc) false) := by
    unfold reset
    rw [setReachable_true]
    simp only [if_true, Bool.true_and, hvis, hst]
  have e2 : reset p false =
      hide (setStateCore { p with isReachableState := some true }
        (jsProp p.params.states "open") false) := by
    unfold reset
    rw [setReachable_true]
    simp only [if_false, Bool.false_and, Bool.false_eq_true]
  have hdq : (setStateCore { p with isReachableState := some true }
      (some vc) false).params.displayPaths = true := by
    rw [setStateCore_params]
    exact hdp
  refine ⟨?_, ?_, ?_, ?_, ?_, ?_⟩
  · rw [e1, showPath_isReachable, setStateCore_isReachable]
  · rw [e1, showPath_state]
    exact setStateCore_state_valid _ vc (Or.inr hcl)
  · rw [e1]
    exact showPath_isVisible_on _ hdq
  · rw [e2, hide_isReachable, setStateCore_isReachable]
  · rw [e2, hide_state, hop]
    exact setStateCore_state_valid _ vo (Or.inl hop)
  · rw [e2]
    exact hide_isVisible _

/-- C9 (witness): the reset asymmetry on the concrete connector configured
`state = cleared (2), visible = true` over `states3` with `displayPaths`
on. -/
theorem C9_reset_asymmetry_witness :
    (reset pathCV true).isReachableState = some true ∧
    (reset pathCV true).state = some 2 ∧
    isVisible (reset pathCV true) = some true ∧
    (reset pathCV false).isReachableState = some true ∧
    (reset pathCV false).state = some 1 ∧
    isVisible (reset pathCV false) = some false :=
  C9_reset_asymmetry pathCV 1 2 (by decide) (by decide) (by decide)
    (by decide) (by decide)

/-- C10: a `Path` constructed with truthy `visible` while the global
`displayPaths` flag is off has `isVisible() = undefined` (`show()` returns
before assigning the field), and it stays undefined under `show`,
`setReachable(true)`, non-boolean `setReachable`, any `setState`, and
`reset({isInitial: true})`; it first becomes defined (as `false`) through
`hide()` or `setReachable(false)`. -/
theorem C10_visibility_undefined (states : List (String × Int))
    (stateParam : Option Int) :
    isVisible (pathInit states false stateParam true) = none ∧
    (∀ p : PathState, p.params.displayPaths = false →
      p.params.visible = true → isVisible p = none →
        isVisible (showPath p) = none ∧
        isVisible (setReachable p (.b true)) = none ∧
        (∀ k : Int, isVisible (setReachable p (.n k)) = none) ∧
        (∀ s : String, isVisible (setReachable p (.s s)) = none) ∧
        isVisible (setReachable p .undef) = none ∧
        (∀ (a : JSArg) (f : Bool) (q : PathState),
          setState p a f = .ok q → isVisible q = none) ∧
        isVisible (reset p true) = none) ∧
    (∀ p : PathState, isVisible (hide p) = some false ∧
      isVisible (setReachable p (.b false)) = some false) := by
  refine ⟨?_, ?_, ?_⟩
  · unfold pathInit
    simp [showPath, isVisible]
  · intro p hdp hvis hv
    have hshow : showPath p = p := showPath_off p hdp
    refine ⟨?_, ?_, fun k => hv, fun s => hv, hv, ?_, ?_⟩
    · rw [hshow]
      exact hv
    · rw [setReachable_true]
      exact hv
    · intro a f q hok
      show q.isVisibleState = none
      rw [setState_ok_isVisible p q a f hok]
      exact hv
    · have e1 : reset p true =
          showPath (setStateCore { p with isReachableState := some true }
            p.params.state false) := by
        unfold reset
        rw [setReachable_true]
        simp only [if_true, Bool.true_and, hvis]
      rw [e1, showPath_off, isVisible, setStateCore_isVisible]
      · exact hv
      · rw [setStateCore_params]
        exact hdp
  · intro p
    refine ⟨hide_isVisible p, ?_⟩
    simp [setReachable, jsTruthy, hide, isVisible]

/-- C10 (witness): the undefined-visibility behaviour at a concrete
configuration over `states3`. -/
theorem C10_visibility_undefined_witness :
    isVisible (pathInit states3 false (some 2) true) = none ∧
    isVisible (showPath (pathInit states3 false (some 2) true)) = none ∧
    isVisible (reset (pathInit states3 false (some 2) true) true) = none ∧
    isVisible (hide (pathInit states3 false (some 2) true)) = some false := by
  have h := C10_visibility_undefined states3 (some 2)
  have h0 := h.1
  have h1 := h.2.1 (pathInit states3 false (some 2) true) (by decide)
    (by decide) h0
  exact ⟨h0, h1.1, h1.2.2.2.2.2.2,
    (h.2.2 (pathInit states3 false (some 2) true)).1⟩

end GameMapPath
